import Mathlib

/-
Verification of the UpdateVisitCountFunction handler (src/index.py).
The handler extracts detail.requestParameters.bucketName and .key from the
inbound event, validates both are present and non-empty, and issues one
atomic ADD of 1 to the count attribute of the item with id "visit_count"
in the configured table, returning a 200 result with the new count or a
500 result with the error text.
-/

namespace UpdateVisitCount

/-- Lowercase hexadecimal digit character, as Python json.dumps uses in unicode escapes. -/
def hexDigit (n : Nat) : Char :=
  if n < 10 then Char.ofNat (48 + n) else Char.ofNat (87 + n)

/-- Four-digit lowercase hexadecimal rendering of a code unit for a unicode escape. -/
def uhex4 (n : Nat) : String :=
  String.mk [hexDigit (n / 4096 % 16), hexDigit (n / 256 % 16), hexDigit (n / 16 % 16), hexDigit (n % 16)]

/-- Escaping of one character as Python json.dumps (default ensure_ascii) renders it inside a JSON string: short escapes for quote, backslash and the common control characters, unicode escapes for other characters outside printable ASCII (surrogate pairs above the basic plane), the character itself otherwise. -/
def jsonEscapeChar (c : Char) : String :=
  if c = '"' then "\\\""
  else if c = '\\' then "\\\\"
  else if c.toNat = 8 then "\\b"
  else if c.toNat = 9 then "\\t"
  else if c.toNat = 10 then "\\n"
  else if c.toNat = 12 then "\\f"
  else if c.toNat = 13 then "\\r"
  else if c.toNat < 32 || c.toNat > 126 then
    if c.toNat < 65536 then "\\u" ++ uhex4 c.toNat
    else "\\u" ++ uhex4 (55296 + (c.toNat - 65536) / 1024) ++ "\\u" ++ uhex4 (56320 + (c.toNat - 65536) % 1024)
  else String.singleton c

/-- json.dumps rendering of a string value. -/
def jsonStringLit (s : String) : String :=
  "\"" ++ String.join (s.data.map jsonEscapeChar) ++ "\""

/-- json.dumps rendering of a flat object whose values are strings, with the default separators of Python json.dumps. -/
def jsonObjectLit (fields : List (String × String)) : String :=
  "\x7b" ++ String.intercalate ", " (fields.map fun kv => jsonStringLit kv.1 ++ ": " ++ jsonStringLit kv.2) ++ "\x7d"

/-- The two body shapes the handler serialises with json.dumps: the success body with message and count (src/index.py lines 36-39) and the failure body with message and error (line 45). -/
inductive Body where
  | success (message : String) (count : String)
  | failure (message : String) (error : String)

/-- Text encoding of a body, as json.dumps produces it. -/
def Body.encode : Body → String
  | .success m c => jsonObjectLit [("message", m), ("count", c)]
  | .failure m e => jsonObjectLit [("message", m), ("error", e)]

/-- The requestParameters mapping inside the event's detail: its bucketName and key entries (none when absent), plus whatever other entries it carries, which the handler never reads (src/index.py lines 12-13). -/
structure RequestParameters where
  bucketName : Option String
  key : Option String
  extraParams : List (String × String)

/-- The event's detail mapping: its optional requestParameters sub-mapping plus other entries the handler never reads (src/index.py line 11). -/
structure Detail where
  requestParameters : Option RequestParameters
  extraDetail : List (String × String)

/-- The inbound event: an optional detail mapping plus other top-level entries the handler never reads (src/index.py line 8). -/
structure Event where
  detail : Option Detail
  extraFields : List (String × String)

/-- The chained lookup of the bucket name, src/index.py lines 11-12: a missing detail or requestParameters defaults to an empty mapping, so the leaf lookup yields none. -/
def Event.bucket_name (e : Event) : Option String :=
  (e.detail.bind Detail.requestParameters).bind RequestParameters.bucketName

/-- The chained lookup of the object key, src/index.py lines 11 and 13. -/
def Event.object_key (e : Event) : Option String :=
  (e.detail.bind Detail.requestParameters).bind RequestParameters.key

/-- Python truthiness test used on src/index.py line 15: `not x` holds for a missing value and for the empty string. -/
def isFalsy : Option String → Bool
  | none => true
  | some s => s == ""

/-- The fixed counter key, src/index.py line 18. -/
def visit_id : String := "visit_count"

/-- A DynamoDB state, viewed as the numeric attribute stored at a given table name, item id and attribute name; none when the attribute or item is absent. -/
def Store : Type := String → String → String → Option Int

/-- The parameters of the update_item call the handler issues, src/index.py lines 21-28: the table name, the primary key id from Key, the attribute named by the ADD update expression, and the numeric increment. -/
structure UpdateItemRequest where
  tableName : String
  keyId : String
  updateAttr : String
  incValue : Int

/-- DynamoDB ADD semantics with ReturnValues UPDATED_NEW: an absent numeric attribute counts as 0, the increment is applied as one atomic operation, and the post-update value is returned. -/
def update_item (s : Store) (r : UpdateItemRequest) : Store × Int :=
  let newVal : Int := ((s r.tableName r.keyId r.updateAttr).getD 0) + r.incValue
  (fun t i a => if t = r.tableName ∧ i = r.keyId ∧ a = r.updateAttr then some newVal else s t i a, newVal)

/-- Outcome oracle for the single fallible external call inside the try block: the update_item call either succeeds or raises with the given message (caught on src/index.py line 41). -/
inductive StoreBehavior where
  | ok : StoreBehavior
  | fail : String → StoreBehavior

/-- The handler's return value: statusCode and the json.dumps-encoded body, src/index.py lines 34-40 and 43-46. -/
structure LambdaResult where
  statusCode : Nat
  body : String

/-- The update_item request the handler issues for an event; none when validation fails on src/index.py line 15 and the ValueError raised on line 16 skips the store call. -/
def handlerRequest (table_name : String) (e : Event) : Option UpdateItemRequest :=
  if isFalsy e.bucket_name || isFalsy e.object_key then none
  else some ⟨table_name, visit_id, "count", 1⟩

/-- The ValueError text raised on src/index.py line 16. -/
def invalid_event_format : String := "Invalid event format"

/-- The generic failure message of the except branch, src/index.py line 45. -/
def error_updating : String := "Error updating visit count"

/-- The success message, src/index.py line 37. -/
def success_message : String := "Visit count updated successfully"

/-- Shallow embedding of handler(event, context) from src/index.py. The unused context argument is omitted. Validation failure and store failure are both caught by the top-level except and become a 500 result with the exception text; on success new_count is the decimal string of the value returned by update_item and the result is the 200 success body. The function returns the result together with the store state after the call. -/
def handler (table_name : String) (e : Event) (sb : StoreBehavior) (s : Store) : LambdaResult × Store :=
  match handlerRequest table_name e with
  | none => (⟨500, (Body.failure error_updating invalid_event_format).encode⟩, s)
  | some req =>
    match sb with
    | .fail msg => (⟨500, (Body.failure error_updating msg).encode⟩, s)
    | .ok =>
      let res := update_item s req
      let new_count := toString res.2
      (⟨200, (Body.success success_message new_count).encode⟩, res.1)

/-- N concurrent invocations, modeled as an arbitrary serialization: each invocation's only store effect is one atomic update_item call, so every interleaving of N invocations coincides with running the handlers in some sequential order. -/
def runSerialized (t : String) (es : List Event) (s : Store) : Store :=
  es.foldl (fun st e => (handler t e StoreBehavior.ok st).2) s

/-- A valid sample event, the scenario of the spec: bucket "b", key "k". -/
def sampleEvent : Event := ⟨some ⟨some ⟨some "b", some "k", []⟩, []⟩, []⟩

/-- The same two leaf fields as sampleEvent but with extra content at every level. -/
def noisyEvent : Event :=
  ⟨some ⟨some ⟨some "b", some "k", [("size", "42")]⟩, [("eventName", "PutObject")]⟩, [("version", "1")]⟩

/-- The scenario event with an empty requestParameters mapping. -/
def emptyParamsEvent : Event := ⟨some ⟨some ⟨none, none, []⟩, []⟩, []⟩

/-- A store with no items at all. -/
def emptyStore : Store := fun _ _ _ => none

/-- A store holding 0 everywhere, giving a concrete initial count of 0. -/
def zeroStore : Store := fun _ _ _ => some 0

lemma isFalsy_false_of_some (b : String) (o : Option String) (ho : o = some b) (hne : b ≠ "") :
    isFalsy o = false := by
  subst ho
  simpa [isFalsy] using hne

lemma handlerRequest_valid (t : String) (e : Event)
    (hb : isFalsy e.bucket_name = false) (hk : isFalsy e.object_key = false) :
    handlerRequest t e = some ⟨t, visit_id, "count", 1⟩ := by
  simp [handlerRequest, hb, hk]

lemma handlerRequest_eq (t : String) (e : Event) (req : UpdateItemRequest)
    (h : handlerRequest t e = some req) : req = ⟨t, visit_id, "count", 1⟩ := by
  unfold handlerRequest at h
  split at h
  · exact absurd h (by simp)
  · exact (Option.some.inj h).symm

lemma handler_of_request_none (t : String) (e : Event) (sb : StoreBehavior) (s : Store)
    (h : handlerRequest t e = none) :
    handler t e sb s = (⟨500, (Body.failure error_updating invalid_event_format).encode⟩, s) := by
  unfold handler
  rw [h]

lemma handler_store_of_request (t : String) (e : Event) (s : Store) (req : UpdateItemRequest)
    (hreq : handlerRequest t e = some req) :
    (handler t e .ok s).2 t visit_id "count" = some ((s t visit_id "count").getD 0 + 1) := by
  have hre := handlerRequest_eq t e req hreq
  subst hre
  unfold handler
  rw [hreq]
  simp [update_item]

lemma handler_ok_store (t : String) (e : Event) (s : Store)
    (hb : isFalsy e.bucket_name = false) (hk : isFalsy e.object_key = false) :
    (handler t e .ok s).2 t visit_id "count" = some ((s t visit_id "count").getD 0 + 1) :=
  handler_store_of_request t e s _ (handlerRequest_valid t e hb hk)

lemma handler_ok_result (t : String) (e : Event) (s : Store)
    (hb : isFalsy e.bucket_name = false) (hk : isFalsy e.object_key = false) :
    (handler t e .ok s).1 =
      ⟨200, (Body.success success_message (toString ((s t visit_id "count").getD 0 + 1))).encode⟩ := by
  unfold handler
  rw [handlerRequest_valid t e hb hk]
  simp [update_item, visit_id]

lemma handlerRequest_none_of_falsy (t : String) (e : Event)
    (h : isFalsy e.bucket_name = true ∨ isFalsy e.object_key = true) :
    handlerRequest t e = none := by
  rcases h with h | h <;> simp [handlerRequest, h]

lemma handler_frame (t : String) (e : Event) (sb : StoreBehavior) (s : Store) (t' i a : String)
    (h : ¬ (t' = t ∧ i = visit_id ∧ a = "count")) :
    (handler t e sb s).2 t' i a = s t' i a := by
  unfold handler
  cases hreq : handlerRequest t e with
  | none => rfl
  | some req =>
    have hre := handlerRequest_eq t e req hreq
    subst hre
    cases sb with
    | fail msg => rfl
    | ok =>
      simp only [update_item]
      split
      · exact absurd (by assumption) h
      · rfl

/-- C1: for every event carrying a non-empty bucket name string and a non-empty key string, the handler adds exactly 1 to the stored count relative to its value immediately before the call and returns statusCode 200 with a body encoding the success message together with the decimal string of the post-increment value. -/
theorem C1_valid_event_increments (t : String) (e : Event) (s : Store) (b k : String)
    (hb : e.bucket_name = some b) (hbne : b ≠ "")
    (hk : e.object_key = some k) (hkne : k ≠ "") :
    (handler t e .ok s).2 t visit_id "count" = some ((s t visit_id "count").getD 0 + 1) ∧
    (handler t e .ok s).1 =
      ⟨200, (Body.success success_message (toString ((s t visit_id "count").getD 0 + 1))).encode⟩ := by
  have hb' := isFalsy_false_of_some b _ hb hbne
  have hk' := isFalsy_false_of_some k _ hk hkne
  exact ⟨handler_ok_store t e s hb' hk', handler_ok_result t e s hb' hk'⟩

/-- Witness for C1 at the spec's scenario: bucket "b", key "k", empty store (initial count 0) gives post count 1 and the 200 success result with count "1". -/
theorem C1_valid_event_increments_witness :
    (handler "T" sampleEvent .ok emptyStore).2 "T" visit_id "count" =
      some ((emptyStore "T" visit_id "count").getD 0 + 1) ∧
    (handler "T" sampleEvent .ok emptyStore).1 =
      ⟨200, (Body.success success_message (toString ((emptyStore "T" visit_id "count").getD 0 + 1))).encode⟩ :=
  C1_valid_event_increments "T" sampleEvent emptyStore "b" "k" rfl (by decide) rfl (by decide)

/-- C2: when the bucket name or the key is missing or the empty string, the handler returns the 500 result whose body carries the generic failure message and the invalid-event error, and no update request is issued, so the store is unchanged. -/
theorem C2_invalid_event (t : String) (e : Event) (sb : StoreBehavior) (s : Store)
    (h : e.bucket_name = none ∨ e.bucket_name = some "" ∨
         e.object_key = none ∨ e.object_key = some "") :
    handler t e sb s = (⟨500, (Body.failure error_updating invalid_event_format).encode⟩, s) ∧
    handlerRequest t e = none := by
  have hreq : handlerRequest t e = none := by
    apply handlerRequest_none_of_falsy
    rcases h with h | h | h | h
    · exact Or.inl (by simp [isFalsy, h])
    · exact Or.inl (by simp [isFalsy, h])
    · exact Or.inr (by simp [isFalsy, h])
    · exact Or.inr (by simp [isFalsy, h])
  exact ⟨handler_of_request_none t e sb s hreq, hreq⟩

/-- Witness for C2 at the spec's scenario: an event with an empty requestParameters mapping gives the 500 invalid-event result and no store request, for any store. -/
theorem C2_invalid_event_witness :
    handler "T" emptyParamsEvent .ok emptyStore =
      (⟨500, (Body.failure error_updating invalid_event_format).encode⟩, emptyStore) ∧
    handlerRequest "T" emptyParamsEvent = none :=
  C2_invalid_event "T" emptyParamsEvent .ok emptyStore (Or.inl rfl)

/-- C3: for every event, store outcome and store state, the handler (a total function of the embedding) returns a result whose statusCode is 200 or 500 and whose body is the json.dumps encoding of one of the two body shapes. -/
theorem C3_total (t : String) (e : Event) (sb : StoreBehavior) (s : Store) :
    ((handler t e sb s).1.statusCode = 200 ∨ (handler t e sb s).1.statusCode = 500) ∧
    ∃ b : Body, (handler t e sb s).1.body = b.encode := by
  unfold handler
  cases hreq : handlerRequest t e with
  | none => exact ⟨Or.inr rfl, ⟨Body.failure error_updating invalid_event_format, rfl⟩⟩
  | some req =>
    cases sb with
    | ok => exact ⟨Or.inl rfl, ⟨Body.success success_message (toString (update_item s req).2), rfl⟩⟩
    | fail msg => exact ⟨Or.inr rfl, ⟨Body.failure error_updating msg, rfl⟩⟩

/-- C4: for every valid event, if the store call fails with error text msg, the handler returns the 500 result whose body carries the generic failure message and exactly msg, and the store is unchanged. -/
theorem C4_store_failure (t : String) (e : Event) (s : Store) (msg b k : String)
    (hb : e.bucket_name = some b) (hbne : b ≠ "")
    (hk : e.object_key = some k) (hkne : k ≠ "") :
    handler t e (.fail msg) s = (⟨500, (Body.failure error_updating msg).encode⟩, s) := by
  have hb' := isFalsy_false_of_some b _ hb hbne
  have hk' := isFalsy_false_of_some k _ hk hkne
  unfold handler
  rw [handlerRequest_valid t e hb' hk']

/-- Witness for C4: a concrete valid event and store error text give the 500 result with that text and leave the empty store unchanged. -/
theorem C4_store_failure_witness :
    handler "T" sampleEvent (.fail "ProvisionedThroughputExceededException") emptyStore =
      (⟨500, (Body.failure error_updating "ProvisionedThroughputExceededException").encode⟩, emptyStore) :=
  C4_store_failure "T" sampleEvent emptyStore "ProvisionedThroughputExceededException" "b" "k"
    rfl (by decide) rfl (by decide)

/-- C5: the handler is not idempotent: two successive successful invocations with the same valid event take the stored count from C to C + 2. -/
theorem C5_not_idempotent (t : String) (e : Event) (s : Store) (b k : String) (C : Int)
    (hb : e.bucket_name = some b) (hbne : b ≠ "")
    (hk : e.object_key = some k) (hkne : k ≠ "")
    (hC : s t visit_id "count" = some C) :
    (handler t e .ok (handler t e .ok s).2).2 t visit_id "count" = some (C + 2) := by
  have hb' := isFalsy_false_of_some b _ hb hbne
  have hk' := isFalsy_false_of_some k _ hk hkne
  have h1 := handler_ok_store t e s hb' hk'
  rw [hC] at h1
  have h2 := handler_ok_store t e (handler t e .ok s).2 hb' hk'
  rw [h1] at h2
  rw [h2]
  norm_num
  ring

/-- Witness for C5: two successful invocations with the sample event against the zero store leave the count at 2. -/
theorem C5_not_idempotent_witness :
    (handler "T" sampleEvent .ok (handler "T" sampleEvent .ok zeroStore).2).2 "T" visit_id "count" =
      some (0 + 2) :=
  C5_not_idempotent "T" sampleEvent zeroStore "b" "k" 0 rfl (by decide) rfl (by decide) rfl

/-- C6: any serialization of N valid invocations (the interleavings possible when each invocation's only write is one atomic update_item) takes the stored count from C to exactly C + N. -/
theorem C6_concurrent (t : String) (es : List Event) (s : Store) (C : Int)
    (hC : s t visit_id "count" = some C)
    (hval : ∀ e ∈ es, isFalsy e.bucket_name = false ∧ isFalsy e.object_key = false) :
    runSerialized t es s t visit_id "count" = some (C + es.length) := by
  induction es generalizing s C with
  | nil => simpa [runSerialized] using hC
  | cons e rest ih =>
    have hv := hval e (List.mem_cons_self e rest)
    have h1 := handler_ok_store t e s hv.1 hv.2
    rw [hC] at h1
    simp only [Option.getD_some] at h1
    have h2 := ih (handler t e .ok s).2 (C + 1) h1
      (fun e' he' => hval e' (List.mem_cons_of_mem e he'))
    have hrun : runSerialized t (e :: rest) s = runSerialized t rest (handler t e .ok s).2 := rfl
    rw [hrun, h2]
    congr 1
    simp only [List.length_cons]
    push_cast
    ring

/-- Witness for C6: two valid invocations serialized against the zero store leave the count at 0 + 2. -/
theorem C6_concurrent_witness :
    runSerialized "T" [sampleEvent, noisyEvent] zeroStore "T" visit_id "count" =
      some (0 + ([sampleEvent, noisyEvent].length : Int)) :=
  C6_concurrent "T" [sampleEvent, noisyEvent] zeroStore 0 rfl
    (by
      intro e he
      simp only [List.mem_cons, List.not_mem_nil, or_false] at he
      rcases he with rfl | rfl <;> exact ⟨rfl, rfl⟩)

/-- C7: two events that agree on the two leaf lookups produce, for the same store behavior and state, the same result and the same store request: all other event content is ignored. -/
theorem C7_noninterference (t : String) (e1 e2 : Event) (sb : StoreBehavior) (s : Store)
    (hb : e1.bucket_name = e2.bucket_name) (hk : e1.object_key = e2.object_key) :
    handler t e1 sb s = handler t e2 sb s ∧ handlerRequest t e1 = handlerRequest t e2 := by
  have hreq : handlerRequest t e1 = handlerRequest t e2 := by
    unfold handlerRequest
    rw [hb, hk]
  refine ⟨?_, hreq⟩
  unfold handler
  rw [hreq]

/-- Witness for C7: the sample event and the noisy event (same leaves, extra content at every level) produce identical outcomes. -/
theorem C7_noninterference_witness :
    handler "T" sampleEvent .ok emptyStore = handler "T" noisyEvent .ok emptyStore ∧
    handlerRequest "T" sampleEvent = handlerRequest "T" noisyEvent :=
  C7_noninterference "T" sampleEvent noisyEvent .ok emptyStore rfl rfl

/-- C8: an event with detail missing, or with detail.requestParameters missing, has both leaf lookups come back none, and the handler behaves exactly as for missing leaf fields: the 500 invalid-event result, no store request, store unchanged. -/
theorem C8_missing_intermediate (t : String) (e : Event) (sb : StoreBehavior) (s : Store)
    (h : e.detail = none ∨ ∃ d, e.detail = some d ∧ d.requestParameters = none) :
    e.bucket_name = none ∧ e.object_key = none ∧
    handler t e sb s = (⟨500, (Body.failure error_updating invalid_event_format).encode⟩, s) ∧
    handlerRequest t e = none := by
  have hmid : e.detail.bind Detail.requestParameters = none := by
    rcases h with h | ⟨d, hd, hdr⟩
    · rw [h]; rfl
    · rw [hd]
      simpa using hdr
  have hb : e.bucket_name = none := by rw [Event.bucket_name, hmid]; rfl
  have hk : e.object_key = none := by rw [Event.object_key, hmid]; rfl
  have hreq : handlerRequest t e = none :=
    handlerRequest_none_of_falsy t e (Or.inl (by rw [hb]; rfl))
  exact ⟨hb, hk, handler_of_request_none t e sb s hreq, hreq⟩

/-- Witness for C8: the event with no detail field at all gives none for both leaves, the 500 invalid-event result and no store request. -/
theorem C8_missing_intermediate_witness :
    (Event.mk none []).bucket_name = none ∧ (Event.mk none []).object_key = none ∧
    handler "T" ⟨none, []⟩ .ok emptyStore =
      (⟨500, (Body.failure error_updating invalid_event_format).encode⟩, emptyStore) ∧
    handlerRequest "T" ⟨none, []⟩ = none :=
  C8_missing_intermediate "T" ⟨none, []⟩ .ok emptyStore (Or.inl rfl)

/-- C9: every update request the handler issues targets the item with id "visit_count" and the count attribute in the configured table, and the state after any invocation agrees with the prior state on every other table, item or attribute. -/
theorem C9_frame_effect (t : String) (e : Event) (sb : StoreBehavior) (s : Store) :
    (∀ r, handlerRequest t e = some r →
      r.tableName = t ∧ r.keyId = visit_id ∧ r.updateAttr = "count" ∧ r.incValue = 1) ∧
    ∀ t' i a, ¬ (t' = t ∧ i = visit_id ∧ a = "count") →
      (handler t e sb s).2 t' i a = s t' i a := by
  constructor
  · intro r hr
    rw [handlerRequest_eq t e r hr]
    exact ⟨rfl, rfl, rfl, rfl⟩
  · intro t' i a h
    exact handler_frame t e sb s t' i a h

/-- Witness for C9: for the sample event, the issued request targets the visit_count id and count attribute of table "T", and an unrelated item of the empty store is untouched. -/
theorem C9_frame_effect_witness :
    ((⟨"T", visit_id, "count", 1⟩ : UpdateItemRequest).tableName = "T" ∧
     (⟨"T", visit_id, "count", 1⟩ : UpdateItemRequest).keyId = visit_id ∧
     (⟨"T", visit_id, "count", 1⟩ : UpdateItemRequest).updateAttr = "count" ∧
     (⟨"T", visit_id, "count", 1⟩ : UpdateItemRequest).incValue = 1) ∧
    (handler "T" sampleEvent .ok emptyStore).2 "T" "other_item" "count" =
      emptyStore "T" "other_item" "count" :=
  ⟨(C9_frame_effect "T" sampleEvent .ok emptyStore).1 ⟨"T", visit_id, "count", 1⟩ rfl,
   (C9_frame_effect "T" sampleEvent .ok emptyStore).2 "T" "other_item" "count" (by decide)⟩

/-- C10: the stored count never decreases: after any invocation it is either unchanged (validation or store failure) or the prior value plus 1 (success); no path subtracts, resets or deletes. -/
theorem C10_count_never_decreases (t : String) (e : Event) (sb : StoreBehavior) (s : Store) :
    (handler t e sb s).2 t visit_id "count" = s t visit_id "count" ∨
    (handler t e sb s).2 t visit_id "count" = some ((s t visit_id "count").getD 0 + 1) := by
  cases hreq : handlerRequest t e with
  | none =>
    left
    rw [handler_of_request_none t e sb s hreq]
  | some req =>
    cases sb with
    | fail msg =>
      left
      unfold handler
      rw [hreq]
    | ok =>
      right
      exact handler_store_of_request t e s req hreq
